import Mathlib

/-!
Verification development for the media-studio repository.

The definitions below are a shallow embedding of the JavaScript sources:
* `VideoProcessor` and its methods come from the video-processing module
  (crop/letterbox geometry, the frame loop, stream composition, stop);
* the gallery functions come from `media-studio/js/storage.js`
  (IndexedDB persistence, modelled by explicit store values and
  explicit outcomes for the fallible browser operations);
* `pickMimeType` comes from the recording helper module.

JavaScript numbers are modelled by `ℚ` (the geometry only divides,
multiplies, adds and compares, so exact rationals are faithful on the
integer-sized inputs involved).  Fallible browser steps (metadata wait,
`play()`, `captureStream`, IndexedDB requests) are modelled by explicit
outcome parameters; browser calls whose specification cannot throw
(`track.clone()`, `addTrack`) are modelled as total.
-/

namespace MediaStudio

/-- Result record of `calculateCropResize`: source rectangle (in the input
frame) and destination rectangle (on the output canvas). -/
structure CropResize where
  srcX : ℚ
  srcY : ℚ
  srcW : ℚ
  srcH : ℚ
  destX : ℚ
  destY : ℚ
  destW : ℚ
  destH : ℚ
deriving DecidableEq, Repr

/-- Embedding of `VideoProcessor.calculateCropResize(inputW, inputH, outputW,
outputH, fitMode)`.  The JS initialises the full-source/full-destination
defaults and then overwrites fields per fit mode; an unknown mode keeps the
defaults (same as `fill`). -/
def calculateCropResize (inputW inputH outputW outputH : ℚ) (fitMode : String) :
    CropResize :=
  let inputAspect := inputW / inputH
  let outputAspect := outputW / outputH
  if fitMode = "contain" then
    if inputAspect > outputAspect then
      -- input is wider: fit to width, letterbox top/bottom
      let destH := outputW / inputAspect
      { srcX := 0, srcY := 0, srcW := inputW, srcH := inputH,
        destX := 0, destY := (outputH - destH) / 2, destW := outputW, destH := destH }
    else
      -- input is taller: fit to height, pillarbox left/right
      let destW := outputH * inputAspect
      { srcX := 0, srcY := 0, srcW := inputW, srcH := inputH,
        destX := (outputW - destW) / 2, destY := 0, destW := destW, destH := outputH }
  else if fitMode = "cover" then
    if inputAspect > outputAspect then
      -- input is wider: crop the sides
      let srcW := inputH * outputAspect
      { srcX := (inputW - srcW) / 2, srcY := 0, srcW := srcW, srcH := inputH,
        destX := 0, destY := 0, destW := outputW, destH := outputH }
    else
      -- input is taller: crop top/bottom
      let srcH := inputW / outputAspect
      { srcX := 0, srcY := (inputH - srcH) / 2, srcW := inputW, srcH := srcH,
        destX := 0, destY := 0, destW := outputW, destH := outputH }
  else
    { srcX := 0, srcY := 0, srcW := inputW, srcH := inputH,
      destX := 0, destY := 0, destW := outputW, destH := outputH }

/-- A `MediaStreamTrack`: a source (camera/microphone) track, the video track
produced by `canvas.captureStream`, or the result of `track.clone()`. -/
inductive Track where
  | cam (id : Nat)
  | canvasCapture
  | cloneOf (t : Track)
deriving DecidableEq, Repr

/-- A `MediaStream`: its track lists plus the pixel dimensions of the video
content it carries (what a `<video>` element playing it reports as
`videoWidth`/`videoHeight`). -/
structure Stream where
  videoTracks : List Track
  audioTracks : List Track
  frameW : ℚ
  frameH : ℚ
deriving DecidableEq, Repr

/-- `MediaStream.getTracks()`: all tracks of the stream. -/
def Stream.getTracks (s : Stream) : List Track :=
  s.videoTracks ++ s.audioTracks

/-- The part of an `HTMLVideoElement` the processor reads: the intrinsic
dimensions of the playing video. -/
structure Video where
  videoWidth : ℚ
  videoHeight : ℚ
deriving DecidableEq, Repr

/-- Mutable state of a `VideoProcessor` instance. -/
structure VideoProcessor where
  canvasW : ℚ
  canvasH : ℚ
  outputStream : Option Stream
  inputVideo : Option Video
  animationId : Option Nat
  isProcessing : Bool
deriving DecidableEq, Repr

/-- The constructor: a fresh canvas (browser default size 300×150) and all
other fields null/false. -/
def VideoProcessor.init : VideoProcessor :=
  { canvasW := 300, canvasH := 150, outputStream := none, inputVideo := none,
    animationId := none, isProcessing := false }

/-- The options object passed to `startProcessing` (after destructuring with
its defaults applied). -/
structure ProcOptions where
  width : ℚ
  height : ℚ
  fitMode : String
  fps : ℚ
deriving DecidableEq, Repr

/-- The frame rate actually handed to `canvas.captureStream`:
`Math.min(Math.max(1, fps || 30), 60)`.  A JS `fps` of `0` is falsy, so
`fps || 30` replaces it by `30`. -/
def safeFps (fps : ℚ) : ℚ :=
  min (max 1 (if fps = 0 then 30 else fps)) 60

/-- Outcomes of the fallible browser steps inside `startProcessing`: whether
video metadata arrives before the 5 s timeout, whether `play()` (including
its one retry) succeeds, and whether `canvas.captureStream` succeeds. -/
structure BrowserEnv where
  metadataReady : Bool
  playOk : Bool
  captureOk : Bool
deriving DecidableEq, Repr

/-- One invocation of `VideoProcessor.processFrame(fitMode)`.  Returns the
updated state and, when a frame was drawn, the rectangles passed to
`ctx.drawImage` (`none` means the call returned without drawing).  The
`requestAnimationFrame` handle is modelled by the positive id 1. -/
def VideoProcessor.processFrame (p : VideoProcessor) (fitMode : String) :
    VideoProcessor × Option CropResize :=
  if p.isProcessing = false then (p, none)
  else
    match p.inputVideo with
    | none => (p, none)
    | some video =>
      let draw : Option CropResize :=
        if video.videoWidth ≠ 0 ∧ video.videoHeight ≠ 0 then
          some (calculateCropResize video.videoWidth video.videoHeight
            p.canvasW p.canvasH fitMode)
        else none
      ({ p with animationId := some 1 }, draw)

/-- How a `startProcessing` call ends: returns the output stream, throws an
error, or never returns (the first-frame poll loops forever when the input
video never reports nonzero dimensions). -/
inductive StartRes where
  | ok (out : Stream)
  | err (msg : String)
  | hangs
deriving DecidableEq, Repr

/-- Everything observable about one `startProcessing` call: the processor
state when it ends, how it ended, and the frame-rate argument passed to
`canvas.captureStream` (`none` when `captureStream` was never reached). -/
structure StartOutcome where
  state : VideoProcessor
  result : StartRes
  capturedFps : Option ℚ
deriving DecidableEq, Repr

/-- Embedding of `VideoProcessor.startProcessing(inputStream, options)`,
following the statement order of the JS: track-validity check, canvas
resize, video-element creation, metadata wait, `play()`, first-frame wait,
`captureStream`, audio-track cloning, `isProcessing = true`, first
`processFrame`.  Per their browser specification `track.clone()` and
`MediaStream.addTrack` do not throw, so every input audio track's clone is
added (the JS `try/catch` around them is defensive only). -/
def VideoProcessor.startProcessing (env : BrowserEnv) (p : VideoProcessor)
    (inputStream : Stream) (opts : ProcOptions) : StartOutcome :=
  if inputStream.videoTracks.length = 0 then
    { state := p, result := .err "No video tracks in input stream", capturedFps := none }
  else
    let p1 : VideoProcessor := { p with canvasW := opts.width, canvasH := opts.height }
    let video : Video := { videoWidth := inputStream.frameW, videoHeight := inputStream.frameH }
    let p2 : VideoProcessor := { p1 with inputVideo := some video }
    if env.metadataReady = false then
      { state := p2, result := .err "Video metadata timeout", capturedFps := none }
    else if env.playOk = false then
      { state := p2, result := .err "play() failed", capturedFps := none }
    else if inputStream.frameW = 0 ∨ inputStream.frameH = 0 then
      { state := p2, result := .hangs, capturedFps := none }
    else if env.captureOk = false then
      { state := p2, result := .err "Failed to capture canvas stream",
        capturedFps := some (safeFps opts.fps) }
    else
      let out : Stream :=
        { videoTracks := [Track.canvasCapture],
          audioTracks := inputStream.audioTracks.map Track.cloneOf,
          frameW := opts.width, frameH := opts.height }
      let p3 : VideoProcessor := { p2 with outputStream := some out, isProcessing := true }
      let p4 : VideoProcessor := (p3.processFrame opts.fitMode).1
      { state := p4, result := .ok out, capturedFps := some (safeFps opts.fps) }

/-- Embedding of `VideoProcessor.stop()`.  Returns the new state together
with the list of tracks on which `track.stop()` was called (all tracks of
the output stream, when there is one). -/
def VideoProcessor.stop (p : VideoProcessor) : VideoProcessor × List Track :=
  let p1 : VideoProcessor := { p with isProcessing := false }
  let p2 : VideoProcessor :=
    if p1.animationId.isSome then { p1 with animationId := none } else p1
  let p3 : VideoProcessor :=
    if p2.inputVideo.isSome then { p2 with inputVideo := none } else p2
  match p3.outputStream with
  | some s => ({ p3 with outputStream := none }, s.getTracks)
  | none => (p3, [])

/-- The tracks of an optional stream (empty when there is no stream). -/
def optTracks : Option Stream → List Track
  | some s => s.getTracks
  | none => []

/-- Run `processFrame` `n` times in sequence, counting how many of the
invocations actually drew a frame. -/
def VideoProcessor.runFrames (p : VideoProcessor) (fitMode : String) :
    Nat → VideoProcessor × Nat
  | 0 => (p, 0)
  | n + 1 =>
    let step := p.processFrame fitMode
    let rest := step.1.runFrames fitMode n
    (rest.1, (if step.2.isSome then 1 else 0) + rest.2)

/-- A record of the `gallery` object store (keyPath `id`).  `blob` is an
opaque blob identity; `metadata` is the spread‑in metadata object. -/
structure GalleryItem where
  id : String
  blob : Nat
  type : String
  size : Nat
  timestamp : Int
  metadata : List (String × String)
deriving DecidableEq, Repr

/-- Embedding of `saveGalleryItem(blob, type, metadata)` from `storage.js`.
The store contents and the outcomes of the two fallible browser steps
(opening the database — which is awaited, so its failure is caught and
re-thrown — and the `store.add` request, whose awaited rejection is likewise
caught and re-thrown) are explicit.  `item` is the record built from the
arguments (its generated `id` and `Date.now()` timestamp included); on
success the new store contents and `item.id` are returned. -/
def saveGalleryItem (openResult addResult : Except String Unit)
    (store : List GalleryItem) (item : GalleryItem) :
    Except String (List GalleryItem × String) :=
  match openResult with
  | .error e => .error e
  | .ok _ =>
    match addResult with
    | .error e => .error e
    | .ok _ => .ok (store ++ [item], item.id)

/-- The comparator `(a, b) => b.timestamp - a.timestamp` used by
`loadGalleryItems`, as the "a sorts no later than b" relation: the
comparator is ≤ 0 exactly when `b.timestamp ≤ a.timestamp`. -/
def galleryOrder (a b : GalleryItem) : Prop :=
  b.timestamp ≤ a.timestamp

instance galleryOrderDecidable : DecidableRel galleryOrder :=
  fun a b => inferInstanceAs (Decidable (b.timestamp ≤ a.timestamp))

instance galleryOrderTotal : IsTotal GalleryItem galleryOrder :=
  ⟨fun a b => le_total b.timestamp a.timestamp⟩

instance galleryOrderTrans : IsTrans GalleryItem galleryOrder :=
  ⟨fun _ _ _ hab hbc => le_trans hbc hab⟩

/-- Embedding of `loadGalleryItems()` from `storage.js`.  `openResult` is
the outcome of `await initDB()` (plus the synchronous `transaction`/`index`
calls): its failure is caught by the `try/catch`, which returns `[]`.
`readResult` is the outcome of the `index.getAll()` request, wrapped in a
promise that is RETURNED (not awaited) from inside the `try` block — so its
rejection is adopted by the async function's promise after the `try/catch`
scope has exited and propagates to the caller.  On success the items are
sorted by timestamp descending (`Array.prototype.sort` guarantees a stable
sort by the comparator order, modelled by `insertionSort`). -/
def loadGalleryItems (openResult : Except String Unit)
    (readResult : Except String (List GalleryItem)) :
    Except String (List GalleryItem) :=
  match openResult with
  | .error _ => .ok []
  | .ok _ =>
    match readResult with
    | .error e => .error e
    | .ok items => .ok (List.insertionSort galleryOrder items)

/-- Embedding of `deleteGalleryItem(id)` from `storage.js`.  The database
open is awaited (failure caught and re-thrown); the `store.delete(id)`
request promise is returned un-awaited, so its rejection propagates to the
caller.  On success the store no longer contains the record with key `id`
and every other record is untouched. -/
def deleteGalleryItem (openResult deleteResult : Except String Unit)
    (store : List GalleryItem) (idv : String) :
    Except String (List GalleryItem) :=
  match openResult with
  | .error e => .error e
  | .ok _ =>
    match deleteResult with
    | .error e => .error e
    | .ok _ => .ok (store.filter (fun item => item.id != idv))

/-- Embedding of `clearGallery()` from `storage.js`: on success the store is
emptied; a database-open failure is re-thrown and a `store.clear()` request
failure propagates. -/
def clearGallery (openResult clearResult : Except String Unit)
    (_store : List GalleryItem) : Except String (List GalleryItem) :=
  match openResult with
  | .error e => .error e
  | .ok _ =>
    match clearResult with
    | .error e => .error e
    | .ok _ => .ok ([] : List GalleryItem)

/-- The video MIME-type candidate list of `pickMimeType` when the stream has
an audio track (Opus included). -/
def videoCandidatesWithAudio : List String :=
  ["video/webm;codecs=vp8,opus",
   "video/webm;codecs=vp9,opus",
   "video/webm;codecs=vp8",
   "video/webm;codecs=vp9",
   "video/webm",
   "video/mp4;codecs=avc1.42E01E,mp4a.40.2",
   "video/mp4"]

/-- The video MIME-type candidate list of `pickMimeType` when the stream has
no audio track. -/
def videoCandidatesNoAudio : List String :=
  ["video/webm;codecs=vp8",
   "video/webm;codecs=vp9",
   "video/webm",
   "video/mp4;codecs=avc1.42E01E",
   "video/mp4"]

/-- The audio-only MIME-type candidate list of `pickMimeType`. -/
def audioCandidates : List String :=
  ["audio/webm;codecs=opus",
   "audio/webm",
   "audio/ogg;codecs=opus"]

/-- The JS `String.prototype.startsWith` test: `pre` is a prefix of `s`
(stated on the character lists so it evaluates by kernel reduction). -/
def strStartsWith (s pre : String) : Bool :=
  pre.data.isPrefixOf s.data

/-- Embedding of `pickMimeType(stream)`: choose the candidate list from the
stream's track kinds and return the first candidate accepted by
`MediaRecorder.isTypeSupported` (an arbitrary predicate here), or the empty
string when none is accepted. -/
def pickMimeType (isTypeSupported : String → Bool) (stream : Stream) : String :=
  let hasVideo := !stream.videoTracks.isEmpty
  let hasAudio := !stream.audioTracks.isEmpty
  let candidates :=
    if hasVideo then
      if hasAudio then videoCandidatesWithAudio else videoCandidatesNoAudio
    else audioCandidates
  match candidates.find? isTypeSupported with
  | some t => t
  | none => ""

/-! ## Theorems -/

/-- C1: for positive input size (inW, inH) and positive output size
(outW, outH), `calculateCropResize` with fit mode `"cover"` returns a
destination rectangle that fills the output exactly (destX = 0, destY = 0,
destW = outW, destH = outH), and a source rectangle that lies entirely
within the input frame, is centered in it on both axes, has positive
dimensions, and whose aspect ratio srcW/srcH equals the output aspect
ratio outW/outH — the input is cropped, never distorted. -/
theorem cover_fills_output_and_crops_centered
    (inW inH outW outH : ℚ) (r : CropResize)
    (hr : r = calculateCropResize inW inH outW outH "cover")
    (hiW : 0 < inW) (hiH : 0 < inH) (hoW : 0 < outW) (hoH : 0 < outH) :
    r.destX = 0 ∧ r.destY = 0 ∧ r.destW = outW ∧ r.destH = outH ∧
    0 ≤ r.srcX ∧ 0 ≤ r.srcY ∧ r.srcX + r.srcW ≤ inW ∧ r.srcY + r.srcH ≤ inH ∧
    r.srcX = (inW - r.srcW) / 2 ∧ r.srcY = (inH - r.srcH) / 2 ∧
    0 < r.srcW ∧ 0 < r.srcH ∧ r.srcW / r.srcH = outW / outH := by
  have hq : (0 : ℚ) < outW / outH := div_pos hoW hoH
  subst hr
  rw [calculateCropResize]
  rw [if_neg (by decide : ¬ (("cover" : String) = "contain")),
    if_pos (rfl : ("cover" : String) = "cover")]
  rcases lt_or_le (outW / outH) (inW / inH) with hgt | hle
  · rw [if_pos hgt]
    have hkey : inH * (outW / outH) < inW := by
      have h1 := (div_lt_div_iff₀ hoH hiH).mp hgt
      rw [mul_comm, div_mul_eq_mul_div, div_lt_iff₀ hoH]
      linarith
    refine ⟨rfl, rfl, rfl, rfl, ?_, le_refl 0, ?_, ?_, rfl, ?_, ?_, hiH, ?_⟩
    · linarith
    · linarith
    · linarith
    · ring
    · positivity
    · exact mul_div_cancel_left₀ _ (ne_of_gt hiH)
  · rw [if_neg (not_lt.mpr hle)]
    have hsp : (0 : ℚ) < inW / (outW / outH) := div_pos hiW hq
    have hkey : inW / (outW / outH) ≤ inH := by
      rw [div_le_iff₀ hq]
      have h1 := (div_le_div_iff₀ hiH hoH).mp hle
      rw [← mul_div_assoc, le_div_iff₀ hoH]
      linarith
    refine ⟨rfl, rfl, rfl, rfl, le_refl 0, ?_, ?_, ?_, ?_, rfl, hiW, hsp, ?_⟩
    · linarith
    · linarith
    · linarith
    · ring
    · rw [div_div_eq_mul_div]
      exact mul_div_cancel_left₀ _ (ne_of_gt hiW)

/-- Witness for C1 at the concrete input 1920×1080 → 1080×1080. -/
theorem cover_fills_output_and_crops_centered_witness :
    (calculateCropResize 1920 1080 1080 1080 "cover" =
      calculateCropResize 1920 1080 1080 1080 "cover") ∧
    ((0 : ℚ) < 1920) ∧ ((0 : ℚ) < 1080) ∧
    ((calculateCropResize 1920 1080 1080 1080 "cover").destX = 0 ∧
     (calculateCropResize 1920 1080 1080 1080 "cover").destY = 0 ∧
     (calculateCropResize 1920 1080 1080 1080 "cover").destW = 1080 ∧
     (calculateCropResize 1920 1080 1080 1080 "cover").destH = 1080 ∧
     0 ≤ (calculateCropResize 1920 1080 1080 1080 "cover").srcX ∧
     0 ≤ (calculateCropResize 1920 1080 1080 1080 "cover").srcY ∧
     (calculateCropResize 1920 1080 1080 1080 "cover").srcX +
       (calculateCropResize 1920 1080 1080 1080 "cover").srcW ≤ 1920 ∧
     (calculateCropResize 1920 1080 1080 1080 "cover").srcY +
       (calculateCropResize 1920 1080 1080 1080 "cover").srcH ≤ 1080 ∧
     (calculateCropResize 1920 1080 1080 1080 "cover").srcX =
       (1920 - (calculateCropResize 1920 1080 1080 1080 "cover").srcW) / 2 ∧
     (calculateCropResize 1920 1080 1080 1080 "cover").srcY =
       (1080 - (calculateCropResize 1920 1080 1080 1080 "cover").srcH) / 2 ∧
     0 < (calculateCropResize 1920 1080 1080 1080 "cover").srcW ∧
     0 < (calculateCropResize 1920 1080 1080 1080 "cover").srcH ∧
     (calculateCropResize 1920 1080 1080 1080 "cover").srcW /
       (calculateCropResize 1920 1080 1080 1080 "cover").srcH = 1080 / 1080) :=
  ⟨rfl, by norm_num, by norm_num,
   cover_fills_output_and_crops_centered 1920 1080 1080 1080 _ rfl
     (by norm_num) (by norm_num) (by norm_num) (by norm_num)⟩

/-- C2: for positive input size (inW, inH) and positive output size
(outW, outH), `calculateCropResize` with fit mode `"contain"` uses the
entire source frame (srcX = 0, srcY = 0, srcW = inW, srcH = inH) and
returns a destination rectangle that lies entirely within the output
canvas, is centered in it on both axes, has positive dimensions, and whose
aspect ratio destW/destH equals the input aspect ratio inW/inH — the frame
is letterboxed, never cropped or distorted. -/
theorem contain_letterboxes_centered
    (inW inH outW outH : ℚ) (r : CropResize)
    (hr : r = calculateCropResize inW inH outW outH "contain")
    (hiW : 0 < inW) (hiH : 0 < inH) (hoW : 0 < outW) (hoH : 0 < outH) :
    r.srcX = 0 ∧ r.srcY = 0 ∧ r.srcW = inW ∧ r.srcH = inH ∧
    0 ≤ r.destX ∧ 0 ≤ r.destY ∧
    r.destX + r.destW ≤ outW ∧ r.destY + r.destH ≤ outH ∧
    r.destX = (outW - r.destW) / 2 ∧ r.destY = (outH - r.destH) / 2 ∧
    0 < r.destW ∧ 0 < r.destH ∧ r.destW / r.destH = inW / inH := by
  have hp : (0 : ℚ) < inW / inH := div_pos hiW hiH
  subst hr
  rw [calculateCropResize]
  rw [if_pos (rfl : ("contain" : String) = "contain")]
  rcases lt_or_le (outW / outH) (inW / inH) with hgt | hle
  · rw [if_pos hgt]
    have hdp : (0 : ℚ) < outW / (inW / inH) := div_pos hoW hp
    have hkey : outW / (inW / inH) ≤ outH := by
      rw [div_le_iff₀ hp]
      have h1 := (div_lt_div_iff₀ hoH hiH).mp hgt
      rw [← mul_div_assoc, le_div_iff₀ hiH]
      linarith
    refine ⟨rfl, rfl, rfl, rfl, le_refl 0, ?_, ?_, ?_, ?_, rfl, hoW, hdp, ?_⟩
    · linarith
    · linarith
    · linarith
    · ring
    · rw [div_div_eq_mul_div]
      exact mul_div_cancel_left₀ _ (ne_of_gt hoW)
  · rw [if_neg (not_lt.mpr hle)]
    have hkey : outH * (inW / inH) ≤ outW := by
      have h1 := (div_le_div_iff₀ hiH hoH).mp hle
      rw [mul_comm, div_mul_eq_mul_div, div_le_iff₀ hiH]
      linarith
    refine ⟨rfl, rfl, rfl, rfl, ?_, le_refl 0, ?_, ?_, ?_, ?_, ?_, hoH, ?_⟩
    · linarith
    · linarith
    · linarith
    · rfl
    · ring
    · positivity
    · exact mul_div_cancel_left₀ _ (ne_of_gt hoH)

/-- Witness for C2 at the concrete input 1920×1080 → 1080×1080. -/
theorem contain_letterboxes_centered_witness :
    (calculateCropResize 1920 1080 1080 1080 "contain" =
      calculateCropResize 1920 1080 1080 1080 "contain") ∧
    ((0 : ℚ) < 1920) ∧ ((0 : ℚ) < 1080) ∧
    ((calculateCropResize 1920 1080 1080 1080 "contain").srcX = 0 ∧
     (calculateCropResize 1920 1080 1080 1080 "contain").srcY = 0 ∧
     (calculateCropResize 1920 1080 1080 1080 "contain").srcW = 1920 ∧
     (calculateCropResize 1920 1080 1080 1080 "contain").srcH = 1080 ∧
     0 ≤ (calculateCropResize 1920 1080 1080 1080 "contain").destX ∧
     0 ≤ (calculateCropResize 1920 1080 1080 1080 "contain").destY ∧
     (calculateCropResize 1920 1080 1080 1080 "contain").destX +
       (calculateCropResize 1920 1080 1080 1080 "contain").destW ≤ 1080 ∧
     (calculateCropResize 1920 1080 1080 1080 "contain").destY +
       (calculateCropResize 1920 1080 1080 1080 "contain").destH ≤ 1080 ∧
     (calculateCropResize 1920 1080 1080 1080 "contain").destX =
       (1080 - (calculateCropResize 1920 1080 1080 1080 "contain").destW) / 2 ∧
     (calculateCropResize 1920 1080 1080 1080 "contain").destY =
       (1080 - (calculateCropResize 1920 1080 1080 1080 "contain").destH) / 2 ∧
     0 < (calculateCropResize 1920 1080 1080 1080 "contain").destW ∧
     0 < (calculateCropResize 1920 1080 1080 1080 "contain").destH ∧
     (calculateCropResize 1920 1080 1080 1080 "contain").destW /
       (calculateCropResize 1920 1080 1080 1080 "contain").destH = 1920 / 1080) :=
  ⟨rfl, by norm_num, by norm_num,
   contain_letterboxes_centered 1920 1080 1080 1080 _ rfl
     (by norm_num) (by norm_num) (by norm_num) (by norm_num)⟩

/-- A sample input stream with one camera video track, one microphone audio
track and 1280×720 video content. -/
def sampleStream : Stream :=
  { videoTracks := [Track.cam 0], audioTracks := [Track.cam 1],
    frameW := 1280, frameH := 720 }

/-- C3: whenever `startProcessing` succeeds, the output stream contains, in
addition to the single canvas video track, exactly the clones of the input
stream's audio tracks, one per input audio track and in order — so every
original audio track is forwarded (via its clone) and none is lost. -/
theorem startProcessing_forwards_audio_tracks
    (env : BrowserEnv) (p : VideoProcessor) (inputStream : Stream)
    (opts : ProcOptions) (out : Stream)
    (h : (VideoProcessor.startProcessing env p inputStream opts).result = StartRes.ok out) :
    out.videoTracks = [Track.canvasCapture] ∧
    out.audioTracks = inputStream.audioTracks.map Track.cloneOf ∧
    ∀ t ∈ inputStream.audioTracks, Track.cloneOf t ∈ out.audioTracks := by
  rw [VideoProcessor.startProcessing] at h
  split_ifs at h
  injection h with h6
  subst h6
  exact ⟨rfl, rfl, fun t ht => List.mem_map_of_mem Track.cloneOf ht⟩

/-- Witness for C3: a concrete successful run on `sampleStream`. -/
theorem startProcessing_forwards_audio_tracks_witness :
    ((VideoProcessor.startProcessing ⟨true, true, true⟩ VideoProcessor.init
        sampleStream ⟨1920, 1080, "cover", 30⟩).result =
      StartRes.ok ⟨[Track.canvasCapture], [Track.cloneOf (Track.cam 1)], 1920, 1080⟩) ∧
    ((Stream.mk [Track.canvasCapture] [Track.cloneOf (Track.cam 1)] 1920 1080).videoTracks =
        [Track.canvasCapture] ∧
      (Stream.mk [Track.canvasCapture] [Track.cloneOf (Track.cam 1)] 1920 1080).audioTracks =
        sampleStream.audioTracks.map Track.cloneOf ∧
      ∀ t ∈ sampleStream.audioTracks,
        Track.cloneOf t ∈
          (Stream.mk [Track.canvasCapture] [Track.cloneOf (Track.cam 1)] 1920 1080).audioTracks) :=
  ⟨by decide,
   startProcessing_forwards_audio_tracks ⟨true, true, true⟩ VideoProcessor.init
     sampleStream ⟨1920, 1080, "cover", 30⟩
     (Stream.mk [Track.canvasCapture] [Track.cloneOf (Track.cam 1)] 1920 1080)
     (by decide)⟩

/-- C4: on an input stream with no video tracks, `startProcessing` throws
`'No video tracks in input stream'` and leaves the processor unchanged —
the validity check precedes every state mutation, so the canvas size,
`isProcessing`, and the output stream are untouched and `captureStream` is
never reached. -/
theorem startProcessing_rejects_no_video
    (env : BrowserEnv) (p : VideoProcessor) (inputStream : Stream)
    (opts : ProcOptions) (h : inputStream.videoTracks = []) :
    VideoProcessor.startProcessing env p inputStream opts =
      { state := p, result := StartRes.err "No video tracks in input stream",
        capturedFps := none } := by
  rw [VideoProcessor.startProcessing, if_pos (by simp [h])]

/-- Witness for C4: a concrete audio-only stream. -/
theorem startProcessing_rejects_no_video_witness :
    (Stream.mk [] [Track.cam 2] 0 0).videoTracks = [] ∧
    VideoProcessor.startProcessing ⟨true, true, true⟩ VideoProcessor.init
        (Stream.mk [] [Track.cam 2] 0 0) ⟨1920, 1080, "cover", 30⟩ =
      { state := VideoProcessor.init,
        result := StartRes.err "No video tracks in input stream",
        capturedFps := none } :=
  ⟨rfl,
   startProcessing_rejects_no_video ⟨true, true, true⟩ VideoProcessor.init
     (Stream.mk [] [Track.cam 2] 0 0) ⟨1920, 1080, "cover", 30⟩ rfl⟩

/-- C5 counterexample: a successful `startProcessing` call that requested
120 fps passed 60 — not 120 — to `canvas.captureStream`, because the code
clamps the rate to [1, 60]. -/
theorem startProcessing_fps_not_always_requested :
    ((VideoProcessor.startProcessing ⟨true, true, true⟩ VideoProcessor.init
        sampleStream ⟨1920, 1080, "cover", 120⟩).result =
      StartRes.ok ⟨[Track.canvasCapture], [Track.cloneOf (Track.cam 1)], 1920, 1080⟩) ∧
    (VideoProcessor.startProcessing ⟨true, true, true⟩ VideoProcessor.init
        sampleStream ⟨1920, 1080, "cover", 120⟩).capturedFps = some 60 ∧
    (VideoProcessor.startProcessing ⟨true, true, true⟩ VideoProcessor.init
        sampleStream ⟨1920, 1080, "cover", 120⟩).capturedFps ≠ some 120 := by
  refine ⟨by decide, by decide, by decide⟩

/-- C5 (amended): whenever `startProcessing` reaches `captureStream`, it
passes the clamped rate `min(max(1, fps || 30), 60)`; in particular, when
the requested fps lies in [1, 60] the rate passed equals the requested
fps. -/
theorem startProcessing_fps_clamped
    (env : BrowserEnv) (p : VideoProcessor) (inputStream : Stream)
    (opts : ProcOptions) (out : Stream)
    (h : (VideoProcessor.startProcessing env p inputStream opts).result = StartRes.ok out)
    (h1 : 1 ≤ opts.fps) (h60 : opts.fps ≤ 60) :
    (VideoProcessor.startProcessing env p inputStream opts).capturedFps =
      some opts.fps := by
  have hsafe : safeFps opts.fps = opts.fps := by
    rw [safeFps, if_neg (by linarith), max_eq_right h1, min_eq_left h60]
  rw [VideoProcessor.startProcessing] at h ⊢
  split_ifs at h ⊢
  dsimp only
  rw [hsafe]

/-- Witness for the amended C5 at the in-range rate 30. -/
theorem startProcessing_fps_clamped_witness :
    ((VideoProcessor.startProcessing ⟨true, true, true⟩ VideoProcessor.init
        sampleStream ⟨1920, 1080, "cover", 30⟩).result =
      StartRes.ok ⟨[Track.canvasCapture], [Track.cloneOf (Track.cam 1)], 1920, 1080⟩) ∧
    (1 : ℚ) ≤ 30 ∧ (30 : ℚ) ≤ 60 ∧
    (VideoProcessor.startProcessing ⟨true, true, true⟩ VideoProcessor.init
        sampleStream ⟨1920, 1080, "cover", 30⟩).capturedFps = some 30 :=
  ⟨by decide, by norm_num, by norm_num,
   startProcessing_fps_clamped ⟨true, true, true⟩ VideoProcessor.init
     sampleStream ⟨1920, 1080, "cover", 30⟩
     (Stream.mk [Track.canvasCapture] [Track.cloneOf (Track.cam 1)] 1920 1080)
     (by decide) (by norm_num) (by norm_num)⟩

/-- A `processFrame` call on a processor that is not processing returns at
once, draws nothing and changes nothing. -/
theorem processFrame_halted (p : VideoProcessor) (fitMode : String)
    (h : p.isProcessing = false) : p.processFrame fitMode = (p, none) := by
  rw [VideoProcessor.processFrame, if_pos h]

/-- Any number of `processFrame` invocations on a non-processing processor
draw zero frames and leave the state fixed. -/
theorem runFrames_halted (p : VideoProcessor) (fitMode : String)
    (h : p.isProcessing = false) : ∀ n, p.runFrames fitMode n = (p, 0) := by
  intro n
  induction n with
  | zero => rfl
  | succ k ih =>
    rw [VideoProcessor.runFrames]
    simp only [processFrame_halted p fitMode h, ih, Option.isSome_none,
      Bool.false_eq_true, if_false, Nat.zero_add]

/-- After `stop`, `isProcessing` is false, the input video and output
stream references are cleared, and exactly the tracks of the previous
output stream received `track.stop()`. -/
theorem stop_state (p : VideoProcessor) :
    (p.stop).1.isProcessing = false ∧ (p.stop).1.inputVideo = none ∧
    (p.stop).1.outputStream = none ∧ (p.stop).2 = optTracks p.outputStream := by
  rcases p with ⟨cw, ch, os, iv, aid, ip⟩
  rcases os with _ | s <;> rcases iv with _ | v <;> rcases aid with _ | a <;>
    simp [VideoProcessor.stop, optTracks]

/-- C6: `stop()` calls `track.stop()` on every track of the output stream,
and afterwards no `processFrame` invocation ever draws again — each returns
immediately with the state unchanged, because `isProcessing` is false and
`inputVideo` is null. -/
theorem stop_stops_tracks_and_halts_drawing
    (p : VideoProcessor) (fitMode : String) (n : Nat) :
    (p.stop).2 = optTracks p.outputStream ∧
    (p.stop).1.isProcessing = false ∧
    (p.stop).1.inputVideo = none ∧
    (p.stop).1.runFrames fitMode n = ((p.stop).1, 0) := by
  obtain ⟨hproc, hvid, _hout, htracks⟩ := stop_state p
  exact ⟨htracks, hproc, hvid, runFrames_halted _ fitMode hproc n⟩

/-- C7: a successful `deleteGalleryItem(id)` removes at most the record
whose key is `id`: every stored item with a different id is still present —
with the same multiplicity, hence with blob, type, size, timestamp and
metadata untouched — and the result contains nothing but items of the
original store, none of them keyed `id`. -/
theorem deleteGalleryItem_removes_only_target
    (store : List GalleryItem) (idv : String) (res : List GalleryItem)
    (h : deleteGalleryItem (Except.ok ()) (Except.ok ()) store idv = Except.ok res) :
    (∀ j, j ∈ store → j.id ≠ idv → j ∈ res) ∧
    (∀ j, j ∈ res → j ∈ store ∧ j.id ≠ idv) ∧
    (∀ j : GalleryItem, j.id ≠ idv → res.count j = store.count j) := by
  have hres : res = store.filter (fun item => item.id != idv) := by
    rw [deleteGalleryItem] at h
    injection h with h1
    exact h1.symm
  subst hres
  refine ⟨?_, ?_, ?_⟩
  · intro j hj hne
    exact List.mem_filter.mpr ⟨hj, by simpa using hne⟩
  · intro j hj
    have hm := List.mem_filter.mp hj
    exact ⟨hm.1, by simpa using hm.2⟩
  · intro j hne
    exact List.count_filter (by simpa using hne)

/-- Witness for C7: deleting id "a" from a two-item store keeps the other
item intact. -/
theorem deleteGalleryItem_removes_only_target_witness :
    (deleteGalleryItem (Except.ok ()) (Except.ok ())
        [GalleryItem.mk "a" 0 "video/webm" 5 100 [],
         GalleryItem.mk "b" 1 "image/jpeg" 3 50 []] "a" =
      Except.ok [GalleryItem.mk "b" 1 "image/jpeg" 3 50 []]) ∧
    ((∀ j, j ∈ [GalleryItem.mk "a" 0 "video/webm" 5 100 [],
          GalleryItem.mk "b" 1 "image/jpeg" 3 50 []] → j.id ≠ "a" →
        j ∈ [GalleryItem.mk "b" 1 "image/jpeg" 3 50 []]) ∧
      (∀ j, j ∈ [GalleryItem.mk "b" 1 "image/jpeg" 3 50 []] →
        j ∈ [GalleryItem.mk "a" 0 "video/webm" 5 100 [],
          GalleryItem.mk "b" 1 "image/jpeg" 3 50 []] ∧ j.id ≠ "a") ∧
      (∀ j : GalleryItem, j.id ≠ "a" →
        ([GalleryItem.mk "b" 1 "image/jpeg" 3 50 []].count j =
          [GalleryItem.mk "a" 0 "video/webm" 5 100 [],
            GalleryItem.mk "b" 1 "image/jpeg" 3 50 []].count j))) :=
  ⟨rfl,
   deleteGalleryItem_removes_only_target
     [GalleryItem.mk "a" 0 "video/webm" 5 100 [],
      GalleryItem.mk "b" 1 "image/jpeg" 3 50 []] "a"
     [GalleryItem.mk "b" 1 "image/jpeg" 3 50 []] rfl⟩

/-- C8: whatever `loadGalleryItems` returns is sorted by timestamp in
descending order: each adjacent pair of returned items has the earlier
item's timestamp ≥ the later item's timestamp. -/
theorem loadGalleryItems_sorted_descending
    (openR : Except String Unit) (readR : Except String (List GalleryItem))
    (res : List GalleryItem) (h : loadGalleryItems openR readR = Except.ok res) :
    List.Chain' (fun a b => b.timestamp ≤ a.timestamp) res := by
  cases openR with
  | error e =>
    rw [loadGalleryItems] at h
    injection h with h1
    subst h1
    exact List.chain'_nil
  | ok u =>
    cases readR with
    | error e => exact absurd h (by rw [loadGalleryItems]; simp)
    | ok items =>
      rw [loadGalleryItems] at h
      injection h with h1
      subst h1
      exact (List.sorted_insertionSort galleryOrder items).chain'

/-- Witness for C8: two concrete items stored oldest-first come back
newest-first. -/
theorem loadGalleryItems_sorted_descending_witness :
    (loadGalleryItems (Except.ok ())
        (Except.ok [GalleryItem.mk "a" 0 "video/webm" 5 50 [],
          GalleryItem.mk "b" 1 "image/jpeg" 3 100 []]) =
      Except.ok [GalleryItem.mk "b" 1 "image/jpeg" 3 100 [],
        GalleryItem.mk "a" 0 "video/webm" 5 50 []]) ∧
    List.Chain' (fun a b : GalleryItem => b.timestamp ≤ a.timestamp)
      [GalleryItem.mk "b" 1 "image/jpeg" 3 100 [],
       GalleryItem.mk "a" 0 "video/webm" 5 50 []] :=
  ⟨rfl,
   loadGalleryItems_sorted_descending (Except.ok ())
     (Except.ok [GalleryItem.mk "a" 0 "video/webm" 5 50 [],
       GalleryItem.mk "b" 1 "image/jpeg" 3 100 []])
     [GalleryItem.mk "b" 1 "image/jpeg" 3 100 [],
      GalleryItem.mk "a" 0 "video/webm" 5 50 []] rfl⟩

/-- C9 counterexample: `loadGalleryItems` DOES propagate a failure of the
`getAll` read — the `try` block returns the request promise without
awaiting it, so its rejection bypasses the `catch` that would have
returned `[]`. -/
theorem loadGalleryItems_read_error_propagates :
    loadGalleryItems (Except.ok ()) (Except.error "getAll request failed") =
      Except.error "getAll request failed" ∧
    loadGalleryItems (Except.ok ()) (Except.error "getAll request failed") ≠
      Except.ok [] := by
  exact ⟨rfl, by simp [loadGalleryItems]⟩

/-- C9 (amended): `loadGalleryItems` swallows a database-open failure and
returns `[]`, but a failure of the `getAll` read propagates to the caller;
`saveGalleryItem`, `deleteGalleryItem` and `clearGallery` propagate both
their open failures and their request failures. -/
theorem storage_error_propagation :
    (∀ (msg : String) readR, loadGalleryItems (Except.error msg) readR = Except.ok []) ∧
    (∀ items, loadGalleryItems (Except.ok ()) (Except.ok items) =
      Except.ok (List.insertionSort galleryOrder items)) ∧
    (∀ msg : String, loadGalleryItems (Except.ok ()) (Except.error msg) =
      Except.error msg) ∧
    (∀ (msg : String) addR store item,
      saveGalleryItem (Except.error msg) addR store item = Except.error msg) ∧
    (∀ (msg : String) store item,
      saveGalleryItem (Except.ok ()) (Except.error msg) store item = Except.error msg) ∧
    (∀ (msg : String) delR store idv,
      deleteGalleryItem (Except.error msg) delR store idv = Except.error msg) ∧
    (∀ (msg : String) store idv,
      deleteGalleryItem (Except.ok ()) (Except.error msg) store idv = Except.error msg) ∧
    (∀ (msg : String) clrR store,
      clearGallery (Except.error msg) clrR store = Except.error msg) ∧
    (∀ (msg : String) store,
      clearGallery (Except.ok ()) (Except.error msg) store = Except.error msg) :=
  ⟨fun _ _ => rfl, fun _ => rfl, fun _ => rfl, fun _ _ _ _ => rfl,
   fun _ _ _ => rfl, fun _ _ _ _ => rfl, fun _ _ _ => rfl,
   fun _ _ _ => rfl, fun _ _ => rfl⟩

/-- The first accepted candidate of a list all of whose members start with
`pre` is either absent (giving the empty string) or starts with `pre`. -/
theorem pickAux (sup : String → Bool) (cands : List String) (pre : String)
    (hall : ∀ c ∈ cands, strStartsWith c pre = true) :
    (match cands.find? sup with | some t => t | none => "") = "" ∨
    strStartsWith (match cands.find? sup with | some t => t | none => "") pre
      = true := by
  rcases hf : cands.find? sup with _ | t
  · exact Or.inl rfl
  · exact Or.inr (hall t (List.mem_of_find?_eq_some hf))

/-- C10: for every stream and every behaviour of
`MediaRecorder.isTypeSupported`, `pickMimeType` returns either the empty
string or a MIME type of the matching kind — one starting with `video/`
when the stream has a video track, one starting with `audio/` when it has
none. -/
theorem pickMimeType_matches_stream_kind
    (isTypeSupported : String → Bool) (stream : Stream) :
    pickMimeType isTypeSupported stream = "" ∨
    strStartsWith (pickMimeType isTypeSupported stream)
      (if stream.videoTracks.isEmpty then "audio/" else "video/") = true := by
  rw [pickMimeType]
  cases hv : stream.videoTracks.isEmpty <;> cases ha : stream.audioTracks.isEmpty
  · exact pickAux isTypeSupported videoCandidatesWithAudio "video/" (by decide)
  · exact pickAux isTypeSupported videoCandidatesNoAudio "video/" (by decide)
  · exact pickAux isTypeSupported audioCandidates "audio/" (by decide)
  · exact pickAux isTypeSupported audioCandidates "audio/" (by decide)

end MediaStudio
